import Mathlib

/-
Verification of the "A Ray of Hope" donation-management backend.

The embedding below follows the repository's source files:
  * the relational data model and foreign-key actions come from the SQL
    migration (tables campaigns / donors / beneficiaries / donations /
    expenses, with ON DELETE SET NULL for campaignId references and
    ON DELETE CASCADE for donations.donorId);
  * the zod validation schemas come from backend/schemas/index.js;
  * the request handlers come from backend/controllers/index.js (the
    modular backend) and from the monolithic backend index.js, which
    differ in how create failures are mapped to HTTP statuses;
  * the auth middleware and login handler come from the monolithic
    backend index.js and backend/controllers/index.js.

Timestamps are modelled as natural numbers (milliseconds for record
timestamps, seconds for token times); money amounts as integers.
-/

namespace RayOfHope

/-! ## Data model (SQL migration) -/

inductive CampaignStatus
  | ACTIVE
  | COMPLETED
  | PAUSED
deriving DecidableEq

structure Campaign where
  id : String
  name : String
  description : Option String
  targetAmount : Option Int
  status : CampaignStatus
  createdAt : Nat
  updatedAt : Nat
deriving DecidableEq

structure Donor where
  id : String
  name : String
  email : Option String
  phone : Option String
  address : Option String
  createdAt : Nat
  updatedAt : Nat
deriving DecidableEq

structure Beneficiary where
  id : String
  name : String
  description : Option String
  contactInfo : Option String
  createdAt : Nat
  updatedAt : Nat
deriving DecidableEq

structure Donation where
  id : String
  amount : Int
  donorId : String
  campaignId : Option String
  createdAt : Nat
  updatedAt : Nat
deriving DecidableEq

structure Expense where
  id : String
  description : String
  amount : Int
  category : String
  campaignId : Option String
  createdAt : Nat
  updatedAt : Nat
deriving DecidableEq

/-- The relational store: one list per table, in insertion order. -/
structure DB where
  campaigns : List Campaign
  donors : List Donor
  beneficiaries : List Beneficiary
  donations : List Donation
  expenses : List Expense
deriving DecidableEq

def DB.empty : DB := ⟨[], [], [], [], []⟩

/-! ## Persistence operations with the migration's foreign-key semantics -/

def campaignExists (db : DB) (cid : String) : Bool :=
  db.campaigns.any (fun c => c.id = cid)

def donorExists (db : DB) (did : String) : Bool :=
  db.donors.any (fun d => d.id = did)

/-- An optional campaignId reference is admissible when absent or resolving. -/
def fkCampaignOk (db : DB) (cid : Option String) : Bool :=
  match cid with
  | none => true
  | some c => campaignExists db c

def insertCampaign (db : DB) (c : Campaign) : DB :=
  ⟨db.campaigns ++ [c], db.donors, db.beneficiaries, db.donations, db.expenses⟩

def insertDonor (db : DB) (d : Donor) : DB :=
  ⟨db.campaigns, db.donors ++ [d], db.beneficiaries, db.donations, db.expenses⟩

def insertBeneficiary (db : DB) (b : Beneficiary) : DB :=
  ⟨db.campaigns, db.donors, db.beneficiaries ++ [b], db.donations, db.expenses⟩

/-- Inserting a donation enforces `donations_donorId_fkey` and
`donations_campaignId_fkey`; a violation is a store failure (`none`). -/
def insertDonation (db : DB) (d : Donation) : Option DB :=
  if donorExists db d.donorId && fkCampaignOk db d.campaignId then
    some ⟨db.campaigns, db.donors, db.beneficiaries, db.donations ++ [d], db.expenses⟩
  else none

/-- Inserting an expense enforces `expenses_campaignId_fkey`. -/
def insertExpense (db : DB) (e : Expense) : Option DB :=
  if fkCampaignOk db e.campaignId then
    some ⟨db.campaigns, db.donors, db.beneficiaries, db.donations, db.expenses ++ [e]⟩
  else none

/-- ON DELETE SET NULL on `donations.campaignId`. -/
def detachDonation (cid : String) (d : Donation) : Donation :=
  if d.campaignId = some cid then ⟨d.id, d.amount, d.donorId, none, d.createdAt, d.updatedAt⟩ else d

/-- ON DELETE SET NULL on `expenses.campaignId`. -/
def detachExpense (cid : String) (e : Expense) : Expense :=
  if e.campaignId = some cid then ⟨e.id, e.description, e.amount, e.category, none, e.createdAt, e.updatedAt⟩ else e

/-- Deleting a campaign row: dependent donations/expenses are kept, their
campaignId cleared (SET NULL actions of the migration). -/
def deleteCampaign (db : DB) (cid : String) : DB :=
  ⟨db.campaigns.filter (fun c => c.id ≠ cid), db.donors, db.beneficiaries,
   db.donations.map (detachDonation cid), db.expenses.map (detachExpense cid)⟩

/-- Deleting a donor row: dependent donations are deleted (CASCADE). -/
def deleteDonor (db : DB) (did : String) : DB :=
  ⟨db.campaigns, db.donors.filter (fun d => d.id ≠ did), db.beneficiaries,
   db.donations.filter (fun d => d.donorId ≠ did), db.expenses⟩

/-! ## Store histories, for store-level invariants -/

inductive Op
  | addCampaign (c : Campaign)
  | addDonor (d : Donor)
  | addBeneficiary (b : Beneficiary)
  | addDonation (dn : Donation)
  | addExpense (e : Expense)
  | delCampaign (cid : String)
  | delDonor (did : String)

def applyOp (db : DB) : Op → DB
  | .addCampaign c => insertCampaign db c
  | .addDonor d => insertDonor db d
  | .addBeneficiary b => insertBeneficiary db b
  | .addDonation dn =>
      match insertDonation db dn with
      | some db2 => db2
      | none => db
  | .addExpense e =>
      match insertExpense db e with
      | some db2 => db2
      | none => db
  | .delCampaign cid => deleteCampaign db cid
  | .delDonor did => deleteDonor db did

def runOps (ops : List Op) : DB := ops.foldl applyOp DB.empty

/-- Every persisted donation references an existing donor. -/
def donorsValid (db : DB) : Prop :=
  ∀ d ∈ db.donations, ∃ dr ∈ db.donors, dr.id = d.donorId

/-! ## Descending sort by a numeric key (orderBy createdAt desc) -/

def insertDescBy (key : α → Nat) (x : α) : List α → List α
  | [] => [x]
  | y :: ys => if key y ≤ key x then x :: y :: ys else y :: insertDescBy key x ys

def sortDescBy (key : α → Nat) : List α → List α
  | [] => []
  | x :: xs => insertDescBy key x (sortDescBy key xs)

/-- The list is sorted by the key, largest first. -/
def DescOrdered (key : α → Nat) (l : List α) : Prop :=
  l.Pairwise (fun a b => key b ≤ key a)

theorem insertDescBy_perm (key : α → Nat) (x : α) (l : List α) :
    List.Perm (insertDescBy key x l) (x :: l) := by
  induction l with
  | nil => exact List.Perm.refl _
  | cons y ys ih =>
    unfold insertDescBy
    by_cases h : key y ≤ key x
    · rw [if_pos h]
    · rw [if_neg h]
      exact ((ih.cons y).trans (List.Perm.swap x y ys))

theorem sortDescBy_perm (key : α → Nat) (l : List α) :
    List.Perm (sortDescBy key l) l := by
  induction l with
  | nil => exact List.Perm.refl _
  | cons x xs ih =>
    unfold sortDescBy
    exact (insertDescBy_perm key x (sortDescBy key xs)).trans (ih.cons x)

theorem sortDescBy_length (key : α → Nat) (l : List α) :
    (sortDescBy key l).length = l.length :=
  (sortDescBy_perm key l).length_eq

theorem insertDescBy_sorted (key : α → Nat) (x : α) (l : List α)
    (h : DescOrdered key l) : DescOrdered key (insertDescBy key x l) := by
  induction l with
  | nil => exact List.pairwise_singleton _ _
  | cons y ys ih =>
    rcases List.pairwise_cons.mp h with ⟨hy, hys⟩
    unfold insertDescBy
    by_cases hk : key y ≤ key x
    · rw [if_pos hk]
      refine List.pairwise_cons.mpr ⟨?_, h⟩
      intro b hb
      rcases List.mem_cons.mp hb with hb | hb
      · exact hb ▸ hk
      · exact Nat.le_trans (hy b hb) hk
    · rw [if_neg hk]
      refine List.pairwise_cons.mpr ⟨?_, ih hys⟩
      intro b hb
      rcases List.mem_cons.mp ((insertDescBy_perm key x ys).mem_iff.mp hb) with hb | hb
      · exact hb ▸ Nat.le_of_lt (Nat.lt_of_not_le hk)
      · exact hy b hb

theorem sortDescBy_sorted (key : α → Nat) (l : List α) :
    DescOrdered key (sortDescBy key l) := by
  induction l with
  | nil => exact List.Pairwise.nil
  | cons x xs ih => exact insertDescBy_sorted key x (sortDescBy key xs) ih

theorem sortDescBy_snoc_perm (key : α → Nat) (l : List α) (x : α) :
    List.Perm (sortDescBy key (l ++ [x])) (x :: sortDescBy key l) :=
  ((sortDescBy_perm key (l ++ [x])).trans (List.perm_append_singleton x l)).trans
    ((sortDescBy_perm key l).symm.cons x)

/-! ## Validation schemas (backend/schemas/index.js, zod)

Raw request bodies are modelled as typed records whose field values may
still violate the schema's value constraints (`min(1)`, `positive()`,
optional email format); `parseX` returns the validated data or `none`
(a ZodError). zod's full email grammar is the library's; it is modelled
by the minimal shape check `emailShapeOk`. -/

structure ExpenseInput where
  description : String
  amount : Int
  category : String
  campaignId : Option String
deriving DecidableEq

structure DonationInput where
  amount : Int
  donorId : String
  campaignId : Option String
deriving DecidableEq

structure CampaignInput where
  name : String
  description : Option String
  targetAmount : Option Int
  status : Option CampaignStatus
deriving DecidableEq

/-- campaignSchema output: status defaulted to ACTIVE when absent. -/
structure CampaignData where
  name : String
  description : Option String
  targetAmount : Option Int
  status : CampaignStatus
deriving DecidableEq

structure DonorInput where
  name : String
  email : Option String
  phone : Option String
  address : Option String
deriving DecidableEq

structure BeneficiaryInput where
  name : String
  description : Option String
  contactInfo : Option String
deriving DecidableEq

def emailShapeOk (s : String) : Bool := s.contains '@'

def posOpt : Option Int → Bool
  | none => true
  | some t => decide (0 < t)

def emailFieldOk : Option String → Bool
  | none => true
  | some e => emailShapeOk e

def parseExpense (i : ExpenseInput) : Option ExpenseInput :=
  if 1 ≤ i.description.length ∧ 0 < i.amount ∧ 1 ≤ i.category.length then some i else none

def parseDonation (i : DonationInput) : Option DonationInput :=
  if 0 < i.amount then some i else none

def parseCampaign (i : CampaignInput) : Option CampaignData :=
  if 1 ≤ i.name.length ∧ posOpt i.targetAmount = true then
    some ⟨i.name, i.description, i.targetAmount, i.status.getD CampaignStatus.ACTIVE⟩
  else none

def parseDonor (i : DonorInput) : Option DonorInput :=
  if 1 ≤ i.name.length ∧ emailFieldOk i.email = true then some i else none

def parseBeneficiary (i : BeneficiaryInput) : Option BeneficiaryInput :=
  if 1 ≤ i.name.length then some i else none

/-! ## Prisma include joins -/

def findCampaign (db : DB) (cid : Option String) : Option Campaign :=
  match cid with
  | none => none
  | some c => db.campaigns.find? (fun k => k.id = c)

def findDonor (db : DB) (did : String) : Option Donor :=
  db.donors.find? (fun k => k.id = did)

structure DonationJoined where
  donation : Donation
  donor : Option Donor
  campaign : Option Campaign
deriving DecidableEq

def joinDonation (db : DB) (d : Donation) : DonationJoined :=
  ⟨d, findDonor db d.donorId, findCampaign db d.campaignId⟩

structure ExpenseJoined where
  expense : Expense
  campaign : Option Campaign
deriving DecidableEq

def joinExpense (db : DB) (e : Expense) : ExpenseJoined :=
  ⟨e, findCampaign db e.campaignId⟩

structure CampaignJoined where
  campaign : Campaign
  donationsCount : Nat
  expensesCount : Nat
deriving DecidableEq

def joinCampaign (db : DB) (c : Campaign) : CampaignJoined :=
  ⟨c, (db.donations.filter (fun d => d.campaignId = some c.id)).length,
      (db.expenses.filter (fun e => e.campaignId = some c.id)).length⟩

structure DonorJoined where
  donor : Donor
  donationsCount : Nat
deriving DecidableEq

def joinDonor (db : DB) (d : Donor) : DonorJoined :=
  ⟨d, (db.donations.filter (fun dn => dn.donorId = d.id)).length⟩

/-! ## List endpoints (findMany with orderBy createdAt desc and includes) -/

def getExpensesList (db : DB) : List ExpenseJoined :=
  (sortDescBy (fun e => e.createdAt) db.expenses).map (joinExpense db)

def getDonationsList (db : DB) : List DonationJoined :=
  (sortDescBy (fun d => d.createdAt) db.donations).map (joinDonation db)

def getCampaignsList (db : DB) : List CampaignJoined :=
  (sortDescBy (fun c => c.createdAt) db.campaigns).map (joinCampaign db)

def getDonorsList (db : DB) : List DonorJoined :=
  (sortDescBy (fun d => d.createdAt) db.donors).map (joinDonor db)

def getBeneficiariesList (db : DB) : List Beneficiary :=
  sortDescBy (fun b => b.createdAt) db.beneficiaries

/-! ## Dashboard aggregation (getDashboardStats) -/

/-- Prisma `aggregate _sum`: null when the table has no rows. -/
def sumAggregate : List Int → Option Int
  | [] => none
  | x :: xs => some (x :: xs).sum

/-- JavaScript `x || d` on a nullable number: null and 0 are falsy. -/
def jsOrInt (x : Option Int) (d : Int) : Int :=
  match x with
  | none => d
  | some v => if v = 0 then d else v

structure Stats where
  totalDonations : Int
  totalExpenses : Int
  activeCampaigns : Nat
  recentDonors : List DonationJoined
deriving DecidableEq

def getDashboardStats (db : DB) : Stats :=
  ⟨jsOrInt (sumAggregate (db.donations.map (fun d => d.amount))) 0,
   jsOrInt (sumAggregate (db.expenses.map (fun e => e.amount))) 0,
   (db.campaigns.filter (fun c => c.status = CampaignStatus.ACTIVE)).length,
   ((sortDescBy (fun d => d.createdAt) db.donations).take 5).map (joinDonation db)⟩

/-! ## Export (exportExpenses): epoch-millis to ISO calendar date -/

def pad2 (n : Nat) : String :=
  if n < 10 then "0" ++ toString n else toString n

def pad4 (n : Nat) : String :=
  if n < 10 then "000" ++ toString n
  else if n < 100 then "00" ++ toString n
  else if n < 1000 then "0" ++ toString n
  else toString n

/-- Gregorian (year, month, day) from days since 1970-01-01. -/
def civilFromDays (z0 : Nat) : Nat × Nat × Nat :=
  let z := z0 + 719468
  let era := z / 146097
  let doe := z % 146097
  let yoe := (doe - doe / 1460 + doe / 36524 - doe / 146096) / 365
  let y := yoe + era * 400
  let doy := doe - (365 * yoe + yoe / 4 - yoe / 100)
  let mp := (5 * doy + 2) / 153
  let d := doy - (153 * mp + 2) / 5 + 1
  let m := if mp < 10 then mp + 3 else mp - 9
  (if m ≤ 2 then y + 1 else y, m, d)

/-- `new Date(ms).toISOString().split("T")[0]`. -/
def isoDate (ms : Nat) : String :=
  let t := civilFromDays (ms / 86400000)
  pad4 t.1 ++ "-" ++ pad2 t.2.1 ++ "-" ++ pad2 t.2.2

/-- JavaScript `s || d` on a nullable string: null and "" are falsy. -/
def jsOrStr (x : Option String) (d : String) : String :=
  match x with
  | none => d
  | some s => if s = "" then d else s

structure XRow where
  date : String
  description : String
  amount : Int
  category : String
  campaign : String
deriving DecidableEq

def exportHeaders : List String :=
  ["Date", "Description", "Amount", "Category", "Campaign"]

def expenseRow (db : DB) (e : Expense) : XRow :=
  ⟨isoDate e.createdAt, e.description, e.amount, e.category,
   jsOrStr ((findCampaign db e.campaignId).map (fun c => c.name)) "N/A"⟩

/-- The worksheet: header row and one data row per expense (findMany with
no filter and no orderBy). -/
def exportExpenses (db : DB) : List String × List XRow :=
  (exportHeaders, db.expenses.map (expenseRow db))

/-! ## Authentication (login handler, jwt, auth middleware) -/

def validCredentials : List (String × String) :=
  [("admin", "ray-hope-2024"), ("staff", "staff-access-2024")]

def JWT_SECRET : String := "ray-of-hope-secret-key"

/-- `expiresIn: "24h"`, in seconds. -/
def tokenTTL : Nat := 24 * 60 * 60

/-- A signed jwt: payload username, the signing secret, issue time. -/
structure Token where
  username : String
  secret : String
  iat : Nat
deriving DecidableEq

def jwtSign (username secret : String) (now : Nat) : Token :=
  ⟨username, secret, now⟩

/-- `jwt.verify`: the signature must match the secret and the token must
not be expired (valid strictly before iat + 24h). -/
def jwtVerify (t : Token) (secret : String) (now : Nat) : Option String :=
  if t.secret = secret ∧ now < t.iat + tokenTTL then some t.username else none

/-- Raw login body: each field may be absent. -/
structure AuthBody where
  username : Option String
  accessKey : Option String
deriving DecidableEq

inductive LoginResult
  | ok (token : Token) (username : String)
  | badRequest
  | unauthorized
deriving DecidableEq

def loginStatus : LoginResult → Nat
  | .ok _ _ => 200
  | .badRequest => 400
  | .unauthorized => 401

def login (body : AuthBody) (now : Nat) : LoginResult :=
  match body.username, body.accessKey with
  | some u, some k =>
    if 1 ≤ u.length ∧ 1 ≤ k.length then
      match validCredentials.find? (fun p => p.1 = u ∧ p.2 = k) with
      | some _ => .ok (jwtSign u JWT_SECRET now) u
      | none => .unauthorized
    else .badRequest
  | _, _ => .badRequest

/-- One space-separated segment of the Authorization header: either plain
text or a well-formed jwt string. -/
inductive Seg
  | raw (s : String)
  | tok (t : Token)
deriving DecidableEq

/-- JavaScript truthiness of a header segment (the empty string is falsy). -/
def segTruthy : Seg → Bool
  | .raw s => s ≠ ""
  | .tok _ => true

def verifySeg (now : Nat) : Seg → Option String
  | .raw _ => none
  | .tok t => jwtVerify t JWT_SECRET now

inductive AuthOutcome
  | missing
  | invalid
  | authed (username : String)
deriving DecidableEq

/-- `authenticateToken`: token := authHeader && authHeader.split(" ")[1];
falsy token yields 401; jwt.verify failure yields 403. The first segment
(the scheme) is never inspected. -/
def authenticateToken (header : Option (List Seg)) (now : Nat) : AuthOutcome :=
  match header with
  | none => .missing
  | some segs =>
    match segs.get? 1 with
    | none => .missing
    | some s =>
      if segTruthy s then
        match verifySeg now s with
        | some u => .authed u
        | none => .invalid
      else .missing

/-! ## Server state and create handlers -/

/-- The store plus generators for ids (cuid) and timestamps. -/
structure Sys where
  db : DB
  nextId : Nat
  now : Nat
deriving DecidableEq

def genId (n : Nat) : String := "rec-" ++ toString n

/-- A protected route: the middleware runs before the handler. -/
def protectedRoute (handler : Sys → Nat × Sys) (header : Option (List Seg))
    (now : Nat) (sys : Sys) : Nat × Sys :=
  match authenticateToken header now with
  | .missing => (401, sys)
  | .invalid => (403, sys)
  | .authed _ => handler sys

def mkExpense (sys : Sys) (d : ExpenseInput) : Expense :=
  ⟨genId sys.nextId, d.description, d.amount, d.category, d.campaignId, sys.now, sys.now⟩

def mkDonation (sys : Sys) (d : DonationInput) : Donation :=
  ⟨genId sys.nextId, d.amount, d.donorId, d.campaignId, sys.now, sys.now⟩

def mkCampaign (sys : Sys) (d : CampaignData) : Campaign :=
  ⟨genId sys.nextId, d.name, d.description, d.targetAmount, d.status, sys.now, sys.now⟩

def mkDonor (sys : Sys) (d : DonorInput) : Donor :=
  ⟨genId sys.nextId, d.name, d.email, d.phone, d.address, sys.now, sys.now⟩

def mkBeneficiary (sys : Sys) (d : BeneficiaryInput) : Beneficiary :=
  ⟨genId sys.nextId, d.name, d.description, d.contactInfo, sys.now, sys.now⟩

/-- POST /expenses, modular controllers: the catch block turns every
failure, validation or store, into a 400 response. -/
def createExpenseCtrl (sys : Sys) (input : ExpenseInput) : (Nat × Option Expense) × Sys :=
  match parseExpense input with
  | none => ((400, none), sys)
  | some d =>
    match insertExpense sys.db (mkExpense sys d) with
    | none => ((400, none), sys)
    | some db2 => ((201, some (mkExpense sys d)), ⟨db2, sys.nextId + 1, sys.now + 1⟩)

/-- POST /api/expenses, monolithic backend: ZodError yields 400, any other
failure yields 500. -/
def createExpenseApp (sys : Sys) (input : ExpenseInput) : (Nat × Option Expense) × Sys :=
  match parseExpense input with
  | none => ((400, none), sys)
  | some d =>
    match insertExpense sys.db (mkExpense sys d) with
    | none => ((500, none), sys)
    | some db2 => ((201, some (mkExpense sys d)), ⟨db2, sys.nextId + 1, sys.now + 1⟩)

/-- POST /donations, modular controllers (every failure becomes 400). -/
def createDonationCtrl (sys : Sys) (input : DonationInput) : (Nat × Option Donation) × Sys :=
  match parseDonation input with
  | none => ((400, none), sys)
  | some d =>
    match insertDonation sys.db (mkDonation sys d) with
    | none => ((400, none), sys)
    | some db2 => ((201, some (mkDonation sys d)), ⟨db2, sys.nextId + 1, sys.now + 1⟩)

/-- POST /api/donations, monolithic backend (ZodError 400, store 500). -/
def createDonationApp (sys : Sys) (input : DonationInput) : (Nat × Option Donation) × Sys :=
  match parseDonation input with
  | none => ((400, none), sys)
  | some d =>
    match insertDonation sys.db (mkDonation sys d) with
    | none => ((500, none), sys)
    | some db2 => ((201, some (mkDonation sys d)), ⟨db2, sys.nextId + 1, sys.now + 1⟩)

/-- POST /campaigns (campaign insert has no foreign keys to violate). -/
def createCampaign (sys : Sys) (input : CampaignInput) : (Nat × Option Campaign) × Sys :=
  match parseCampaign input with
  | none => ((400, none), sys)
  | some d =>
    ((201, some (mkCampaign sys d)),
     ⟨insertCampaign sys.db (mkCampaign sys d), sys.nextId + 1, sys.now + 1⟩)

/-- POST /donors. -/
def createDonor (sys : Sys) (input : DonorInput) : (Nat × Option Donor) × Sys :=
  match parseDonor input with
  | none => ((400, none), sys)
  | some d =>
    ((201, some (mkDonor sys d)),
     ⟨insertDonor sys.db (mkDonor sys d), sys.nextId + 1, sys.now + 1⟩)

/-- POST /beneficiaries. -/
def createBeneficiary (sys : Sys) (input : BeneficiaryInput) : (Nat × Option Beneficiary) × Sys :=
  match parseBeneficiary input with
  | none => ((400, none), sys)
  | some d =>
    ((201, some (mkBeneficiary sys d)),
     ⟨insertBeneficiary sys.db (mkBeneficiary sys d), sys.nextId + 1, sys.now + 1⟩)

/-! ## Registered routes -/

inductive Method
  | GET
  | POST
  | PUT
  | DELETE
deriving DecidableEq

/-- The full route table of backend/routes/index.js. -/
def backendRoutes : List (Method × String) :=
  [(.POST, "/auth/login"),
   (.GET, "/dashboard/stats"),
   (.GET, "/expenses"), (.POST, "/expenses"),
   (.GET, "/donations"), (.POST, "/donations"),
   (.GET, "/campaigns"), (.POST, "/campaigns"),
   (.GET, "/donors"), (.POST, "/donors"),
   (.GET, "/beneficiaries"), (.POST, "/beneficiaries"),
   (.GET, "/export/expenses")]

/-- The full route table of the monolithic backend index.js. -/
def appRoutes : List (Method × String) :=
  [(.POST, "/api/auth/login"),
   (.GET, "/api/dashboard/stats"),
   (.GET, "/api/expenses"), (.POST, "/api/expenses"),
   (.GET, "/api/donations"), (.POST, "/api/donations"),
   (.GET, "/api/campaigns"), (.POST, "/api/campaigns"),
   (.GET, "/api/donors"), (.POST, "/api/donors"),
   (.GET, "/api/beneficiaries"), (.POST, "/api/beneficiaries"),
   (.GET, "/api/export/expenses")]

/-- The expense endpoints the frontend API client (App.tsx) targets. -/
def clientExpenseCalls : List (Method × String) :=
  [(.GET, "/expenses"), (.POST, "/expenses"),
   (.PUT, "/expenses/:id"), (.DELETE, "/expenses/:id")]

/-! ## Helper lemmas -/

theorem jsOrInt_sumAggregate (l : List Int) : jsOrInt (sumAggregate l) 0 = l.sum := by
  cases l with
  | nil => rfl
  | cons x xs =>
    show (if (x :: xs).sum = 0 then 0 else (x :: xs).sum) = (x :: xs).sum
    by_cases h : (x :: xs).sum = 0
    · rw [if_pos h, h]
    · rw [if_neg h]

theorem getExpensesList_entities (db : DB) :
    (getExpensesList db).map (fun j => j.expense) =
      sortDescBy (fun e => e.createdAt) db.expenses := by
  unfold getExpensesList
  rw [List.map_map]
  exact List.map_id _

theorem getDonationsList_entities (db : DB) :
    (getDonationsList db).map (fun j => j.donation) =
      sortDescBy (fun d => d.createdAt) db.donations := by
  unfold getDonationsList
  rw [List.map_map]
  exact List.map_id _

theorem getCampaignsList_entities (db : DB) :
    (getCampaignsList db).map (fun j => j.campaign) =
      sortDescBy (fun c => c.createdAt) db.campaigns := by
  unfold getCampaignsList
  rw [List.map_map]
  exact List.map_id _

theorem getDonorsList_entities (db : DB) :
    (getDonorsList db).map (fun j => j.donor) =
      sortDescBy (fun d => d.createdAt) db.donors := by
  unfold getDonorsList
  rw [List.map_map]
  exact List.map_id _

/-! ## Claims -/

/-- C1: the spec states that the API exposes Expense update and delete
(PUT/DELETE /expenses/:id). Neither backend registers any PUT or DELETE
route at all, while the frontend API client targets both endpoints, so
those requests are unmatched: the routes the spec (and the client)
require are missing from the server. -/
theorem C1_expense_update_delete_routes_absent :
    backendRoutes.filter (fun r => r.1 = Method.PUT ∨ r.1 = Method.DELETE) = [] ∧
    appRoutes.filter (fun r => r.1 = Method.PUT ∨ r.1 = Method.DELETE) = [] ∧
    (Method.PUT, "/expenses/:id") ∈ clientExpenseCalls ∧
    (Method.DELETE, "/expenses/:id") ∈ clientExpenseCalls := by decide

/-- C5: dashboard totals equal the sum of all persisted Donation and
Expense amounts, and are the number 0 (not null) on an empty table. -/
theorem C5_dashboard_totals (db : DB) :
    (getDashboardStats db).totalDonations = (db.donations.map (fun d => d.amount)).sum ∧
    (getDashboardStats db).totalExpenses = (db.expenses.map (fun e => e.amount)).sum ∧
    (db.donations = [] → (getDashboardStats db).totalDonations = 0) ∧
    (db.expenses = [] → (getDashboardStats db).totalExpenses = 0) := by
  refine ⟨jsOrInt_sumAggregate _, jsOrInt_sumAggregate _, ?_, ?_⟩
  · intro h
    show jsOrInt (sumAggregate (db.donations.map (fun d => d.amount))) 0 = 0
    rw [h]
    rfl
  · intro h
    show jsOrInt (sumAggregate (db.expenses.map (fun e => e.amount))) 0 = 0
    rw [h]
    rfl

theorem C5_dashboard_totals_witness :
    (getDashboardStats DB.empty).totalDonations = 0 ∧
    (getDashboardStats DB.empty).totalExpenses = 0 :=
  ⟨(C5_dashboard_totals DB.empty).2.2.1 rfl, (C5_dashboard_totals DB.empty).2.2.2 rfl⟩

/-- C4: for every create handler (both backend variants) and every input
whose amount (for Campaign: targetAmount) is ≤ 0, validation fails, the
response is 400 and the state is returned unchanged. -/
theorem C4_nonpositive_amount_rejected (sys : Sys) :
    (∀ input : ExpenseInput, input.amount ≤ 0 →
        createExpenseCtrl sys input = ((400, none), sys) ∧
        createExpenseApp sys input = ((400, none), sys)) ∧
    (∀ input : DonationInput, input.amount ≤ 0 →
        createDonationCtrl sys input = ((400, none), sys) ∧
        createDonationApp sys input = ((400, none), sys)) ∧
    (∀ input : CampaignInput, ∀ t, input.targetAmount = some t → t ≤ 0 →
        createCampaign sys input = ((400, none), sys)) := by
  refine ⟨?_, ?_, ?_⟩
  · intro input h
    have hp : parseExpense input = none := by
      unfold parseExpense
      rw [if_neg]
      intro hc
      exact absurd hc.2.1 (by omega)
    exact ⟨by unfold createExpenseCtrl; rw [hp], by unfold createExpenseApp; rw [hp]⟩
  · intro input h
    have hp : parseDonation input = none := by
      unfold parseDonation
      rw [if_neg]
      omega
    exact ⟨by unfold createDonationCtrl; rw [hp], by unfold createDonationApp; rw [hp]⟩
  · intro input t ht h
    have hp : parseCampaign input = none := by
      unfold parseCampaign
      rw [if_neg]
      intro hc
      have h2 := hc.2
      rw [ht] at h2
      unfold posOpt at h2
      have : (0 : Int) < t := of_decide_eq_true h2
      omega
    unfold createCampaign
    rw [hp]

theorem C4_nonpositive_amount_rejected_witness :
    createExpenseCtrl ⟨DB.empty, 0, 0⟩ ⟨"x", -5, "c", none⟩ = ((400, none), ⟨DB.empty, 0, 0⟩) ∧
    createDonationApp ⟨DB.empty, 0, 0⟩ ⟨0, "d1", none⟩ = ((400, none), ⟨DB.empty, 0, 0⟩) ∧
    createCampaign ⟨DB.empty, 0, 0⟩ ⟨"n", none, some (-3), none⟩ = ((400, none), ⟨DB.empty, 0, 0⟩) :=
  ⟨((C4_nonpositive_amount_rejected ⟨DB.empty, 0, 0⟩).1 ⟨"x", -5, "c", none⟩ (by decide)).1,
   ((C4_nonpositive_amount_rejected ⟨DB.empty, 0, 0⟩).2.1 ⟨0, "d1", none⟩ (by decide)).2,
   (C4_nonpositive_amount_rejected ⟨DB.empty, 0, 0⟩).2.2 ⟨"n", none, some (-3), none⟩ (-3) rfl (by decide)⟩

/-- C2 counterexample: a schema-valid donation whose donorId resolves to no
donor is a persistence failure, yet the modular controllers respond 400
(the validation-error status), not 500. -/
theorem C2_counterexample :
    parseDonation ⟨5, "d1", none⟩ = some ⟨5, "d1", none⟩ ∧
    insertDonation DB.empty (mkDonation ⟨DB.empty, 0, 0⟩ ⟨5, "d1", none⟩) = none ∧
    (createDonationCtrl ⟨DB.empty, 0, 0⟩ ⟨5, "d1", none⟩).1.1 = 400 ∧
    (createDonationCtrl ⟨DB.empty, 0, 0⟩ ⟨5, "d1", none⟩).1.1 ≠ 500 := by decide

/-- C2 amended: on a store failure after successful validation, the
monolithic backend responds 500, but the modular controllers respond 400;
in both variants the state is unchanged. -/
theorem C2_persistence_failure_status :
    (∀ sys : Sys, ∀ input, parseDonation input = some input →
        insertDonation sys.db (mkDonation sys input) = none →
        createDonationApp sys input = ((500, none), sys) ∧
        createDonationCtrl sys input = ((400, none), sys)) ∧
    (∀ sys : Sys, ∀ input, parseExpense input = some input →
        insertExpense sys.db (mkExpense sys input) = none →
        createExpenseApp sys input = ((500, none), sys) ∧
        createExpenseCtrl sys input = ((400, none), sys)) := by
  constructor
  · intro sys input hp hins
    constructor
    · simp only [createDonationApp, hp, hins]
    · simp only [createDonationCtrl, hp, hins]
  · intro sys input hp hins
    constructor
    · simp only [createExpenseApp, hp, hins]
    · simp only [createExpenseCtrl, hp, hins]

theorem C2_persistence_failure_status_witness :
    createDonationApp ⟨DB.empty, 0, 0⟩ ⟨5, "d1", none⟩ = ((500, none), ⟨DB.empty, 0, 0⟩) ∧
    createDonationCtrl ⟨DB.empty, 0, 0⟩ ⟨5, "d1", none⟩ = ((400, none), ⟨DB.empty, 0, 0⟩) ∧
    createExpenseApp ⟨DB.empty, 0, 0⟩ ⟨"Food", 5, "Food", some "c9"⟩ = ((500, none), ⟨DB.empty, 0, 0⟩) ∧
    createExpenseCtrl ⟨DB.empty, 0, 0⟩ ⟨"Food", 5, "Food", some "c9"⟩ = ((400, none), ⟨DB.empty, 0, 0⟩) :=
  ⟨(C2_persistence_failure_status.1 ⟨DB.empty, 0, 0⟩ ⟨5, "d1", none⟩ (by decide) (by decide)).1,
   (C2_persistence_failure_status.1 ⟨DB.empty, 0, 0⟩ ⟨5, "d1", none⟩ (by decide) (by decide)).2,
   (C2_persistence_failure_status.2 ⟨DB.empty, 0, 0⟩ ⟨"Food", 5, "Food", some "c9"⟩ (by decide) (by decide)).1,
   (C2_persistence_failure_status.2 ⟨DB.empty, 0, 0⟩ ⟨"Food", 5, "Food", some "c9"⟩ (by decide) (by decide)).2⟩

/-- C3 counterexample: an empty-string username fails the auth schema, so
login responds 400, not the claimed 401. -/
theorem C3_counterexample :
    login ⟨some "", some "ray-hope-2024"⟩ 0 = LoginResult.badRequest ∧
    loginStatus (login ⟨some "", some "ray-hope-2024"⟩ 0) = 400 ∧
    loginStatus (login ⟨some "", some "ray-hope-2024"⟩ 0) ≠ 401 := by decide

/-- C3 amended: a non-allow-listed pair of nonempty strings gets 401; a
missing or empty-string field gets 400; an allow-listed pair gets a token
encoding the username that verifies strictly before iat + 24h and fails
from iat + 24h on. -/
theorem C3_login_allowlist :
    (∀ u k now, 1 ≤ u.length → 1 ≤ k.length → (u, k) ∉ validCredentials →
        login ⟨some u, some k⟩ now = LoginResult.unauthorized) ∧
    (∀ body : AuthBody, ∀ now,
        body.username = none ∨ body.accessKey = none ∨
          body.username = some "" ∨ body.accessKey = some "" →
        login body now = LoginResult.badRequest) ∧
    (∀ u k now, (u, k) ∈ validCredentials →
        login ⟨some u, some k⟩ now = LoginResult.ok (jwtSign u JWT_SECRET now) u ∧
        (∀ m, m < now + tokenTTL → jwtVerify (jwtSign u JWT_SECRET now) JWT_SECRET m = some u) ∧
        (∀ m, now + tokenTTL ≤ m → jwtVerify (jwtSign u JWT_SECRET now) JWT_SECRET m = none)) := by
  refine ⟨?_, ?_, ?_⟩
  · intro u k now hu hk hmem
    have h1 : ¬ ((("admin", "ray-hope-2024") : String × String).1 = u ∧
        (("admin", "ray-hope-2024") : String × String).2 = k) := by
      rintro ⟨rfl, rfl⟩
      exact hmem (by decide)
    have h2 : ¬ ((("staff", "staff-access-2024") : String × String).1 = u ∧
        (("staff", "staff-access-2024") : String × String).2 = k) := by
      rintro ⟨rfl, rfl⟩
      exact hmem (by decide)
    show (if 1 ≤ u.length ∧ 1 ≤ k.length then
        match validCredentials.find? (fun p => p.1 = u ∧ p.2 = k) with
        | some _ => LoginResult.ok (jwtSign u JWT_SECRET now) u
        | none => LoginResult.unauthorized
      else LoginResult.badRequest) = LoginResult.unauthorized
    rw [if_pos (show 1 ≤ u.length ∧ 1 ≤ k.length from ⟨hu, hk⟩)]
    unfold validCredentials
    rw [List.find?_cons_of_neg, List.find?_cons_of_neg]
    · rfl
    · exact fun hd => h2 (of_decide_eq_true hd)
    · exact fun hd => h1 (of_decide_eq_true hd)
  · intro body now h
    obtain ⟨bu, bk⟩ := body
    rcases h with h | h | h | h
    · cases h
      rfl
    · cases h
      cases bu <;> rfl
    · cases h
      cases bk with
      | none => rfl
      | some k =>
        show (if 1 ≤ ("" : String).length ∧ 1 ≤ k.length then
            match validCredentials.find? (fun p => p.1 = "" ∧ p.2 = k) with
            | some _ => LoginResult.ok (jwtSign "" JWT_SECRET now) ""
            | none => LoginResult.unauthorized
          else LoginResult.badRequest) = LoginResult.badRequest
        rw [if_neg (show ¬ (1 ≤ ("" : String).length ∧ 1 ≤ k.length) from
          fun hc => absurd hc.1 (by decide))]
    · cases h
      cases bu with
      | none => rfl
      | some u =>
        show (if 1 ≤ u.length ∧ 1 ≤ ("" : String).length then
            match validCredentials.find? (fun p => p.1 = u ∧ p.2 = "") with
            | some _ => LoginResult.ok (jwtSign u JWT_SECRET now) u
            | none => LoginResult.unauthorized
          else LoginResult.badRequest) = LoginResult.badRequest
        rw [if_neg (show ¬ (1 ≤ u.length ∧ 1 ≤ ("" : String).length) from
          fun hc => absurd hc.2 (by decide))]
  · intro u k now hmem
    have hver : ∀ m, m < now + tokenTTL →
        jwtVerify (jwtSign u JWT_SECRET now) JWT_SECRET m = some u := by
      intro m hm
      show (if JWT_SECRET = JWT_SECRET ∧ m < now + tokenTTL then some u else none) = some u
      rw [if_pos (show JWT_SECRET = JWT_SECRET ∧ m < now + tokenTTL from ⟨rfl, hm⟩)]
    have hexp : ∀ m, now + tokenTTL ≤ m →
        jwtVerify (jwtSign u JWT_SECRET now) JWT_SECRET m = none := by
      intro m hm
      show (if JWT_SECRET = JWT_SECRET ∧ m < now + tokenTTL then some u else none) = none
      rw [if_neg (show ¬ (JWT_SECRET = JWT_SECRET ∧ m < now + tokenTTL) from
        fun hc => absurd hc.2 (by omega))]
    rcases List.mem_cons.mp hmem with heq | hmem2
    · have hu : u = "admin" := congrArg Prod.fst heq
      have hk : k = "ray-hope-2024" := congrArg Prod.snd heq
      subst hu
      subst hk
      exact ⟨rfl, hver, hexp⟩
    · rcases List.mem_cons.mp hmem2 with heq | hnil
      · have hu : u = "staff" := congrArg Prod.fst heq
        have hk : k = "staff-access-2024" := congrArg Prod.snd heq
        subst hu
        subst hk
        exact ⟨rfl, hver, hexp⟩
      · exact absurd hnil (List.not_mem_nil _)

theorem C3_login_allowlist_witness :
    login ⟨some "mallory", some "guess"⟩ 0 = LoginResult.unauthorized ∧
    login ⟨some "", some "guess"⟩ 0 = LoginResult.badRequest ∧
    login ⟨some "admin", some "ray-hope-2024"⟩ 0 =
      LoginResult.ok (jwtSign "admin" JWT_SECRET 0) "admin" ∧
    jwtVerify (jwtSign "admin" JWT_SECRET 0) JWT_SECRET 86399 = some "admin" ∧
    jwtVerify (jwtSign "admin" JWT_SECRET 0) JWT_SECRET 86400 = none :=
  ⟨C3_login_allowlist.1 "mallory" "guess" 0 (by decide) (by decide) (by decide),
   C3_login_allowlist.2.1 ⟨some "", some "guess"⟩ 0 (Or.inr (Or.inr (Or.inl rfl))),
   (C3_login_allowlist.2.2 "admin" "ray-hope-2024" 0 (by decide)).1,
   (C3_login_allowlist.2.2 "admin" "ray-hope-2024" 0 (by decide)).2.1 86399 (by decide),
   (C3_login_allowlist.2.2 "admin" "ray-hope-2024" 0 (by decide)).2.2 86400 (by decide)⟩

def okHandler : Sys → Nat × Sys := fun s => (200, s)

/-- C10: with no Authorization header (or no second space-separated
segment) the middleware responds 401 without running the handler; a
present token that fails verification yields 403 without running the
handler; in both cases the state is unchanged; a verifiable token in the
second segment reaches the handler whatever the first segment says. -/
theorem C10_auth_middleware :
    (∀ handler sys now, protectedRoute handler none now sys = (401, sys)) ∧
    (∀ handler sys now segs, segs.get? 1 = none →
        protectedRoute handler (some segs) now sys = (401, sys)) ∧
    (∀ handler sys now segs s, segs.get? 1 = some s → segTruthy s = true →
        verifySeg now s = none →
        protectedRoute handler (some segs) now sys = (403, sys)) ∧
    (∀ handler sys now scheme t, t.secret = JWT_SECRET → now < t.iat + tokenTTL →
        protectedRoute handler (some [Seg.raw scheme, Seg.tok t]) now sys = handler sys) := by
  have hred : ∀ segs now, authenticateToken (some segs) now =
      match segs.get? 1 with
      | none => AuthOutcome.missing
      | some s =>
        if segTruthy s then
          match verifySeg now s with
          | some u => AuthOutcome.authed u
          | none => AuthOutcome.invalid
        else AuthOutcome.missing := fun segs now => rfl
  refine ⟨fun handler sys now => rfl, ?_, ?_, ?_⟩
  · intro handler sys now segs hget
    unfold protectedRoute
    rw [hred, hget]
  · intro handler sys now segs s hget htru hver
    have ha : authenticateToken (some segs) now = AuthOutcome.invalid := by
      rw [hred, hget]
      show (if segTruthy s then
          match verifySeg now s with
          | some u => AuthOutcome.authed u
          | none => AuthOutcome.invalid
        else AuthOutcome.missing) = AuthOutcome.invalid
      rw [if_pos htru, hver]
    unfold protectedRoute
    rw [ha]
  · intro handler sys now scheme t hsec hexp
    have hv : verifySeg now (Seg.tok t) = some t.username := by
      show (if t.secret = JWT_SECRET ∧ now < t.iat + tokenTTL then some t.username else none) =
        some t.username
      rw [if_pos (show t.secret = JWT_SECRET ∧ now < t.iat + tokenTTL from ⟨hsec, hexp⟩)]
    have ha : authenticateToken (some [Seg.raw scheme, Seg.tok t]) now =
        AuthOutcome.authed t.username := by
      rw [hred]
      show (if segTruthy (Seg.tok t) then
          match verifySeg now (Seg.tok t) with
          | some u => AuthOutcome.authed u
          | none => AuthOutcome.invalid
        else AuthOutcome.missing) = AuthOutcome.authed t.username
      rw [if_pos (show segTruthy (Seg.tok t) = true from rfl), hv]
    unfold protectedRoute
    rw [ha]

theorem C10_auth_middleware_witness :
    protectedRoute okHandler none 0 ⟨DB.empty, 0, 0⟩ = (401, ⟨DB.empty, 0, 0⟩) ∧
    protectedRoute okHandler (some [Seg.raw "Bearer"]) 0 ⟨DB.empty, 0, 0⟩ = (401, ⟨DB.empty, 0, 0⟩) ∧
    protectedRoute okHandler (some [Seg.raw "Bearer", Seg.raw "junk"]) 0 ⟨DB.empty, 0, 0⟩ =
      (403, ⟨DB.empty, 0, 0⟩) ∧
    protectedRoute okHandler
      (some [Seg.raw "Token", Seg.tok (jwtSign "admin" JWT_SECRET 0)]) 5 ⟨DB.empty, 0, 0⟩ =
      okHandler ⟨DB.empty, 0, 0⟩ :=
  ⟨C10_auth_middleware.1 okHandler ⟨DB.empty, 0, 0⟩ 0,
   C10_auth_middleware.2.1 okHandler ⟨DB.empty, 0, 0⟩ 0 [Seg.raw "Bearer"] rfl,
   C10_auth_middleware.2.2.1 okHandler ⟨DB.empty, 0, 0⟩ 0 [Seg.raw "Bearer", Seg.raw "junk"]
     (Seg.raw "junk") rfl (by decide) rfl,
   C10_auth_middleware.2.2.2 okHandler ⟨DB.empty, 0, 0⟩ 5 "Token"
     (jwtSign "admin" JWT_SECRET 0) rfl (by decide)⟩

/-- C6: the dashboard recentDonors list has length min(5, donation count),
is sorted by creation time descending, and each element is the donation
joined with the store's lookup of its donor and of its optional campaign. -/
theorem C6_recent_donors (db : DB) :
    (getDashboardStats db).recentDonors.length = min 5 db.donations.length ∧
    DescOrdered (fun j => j.donation.createdAt) (getDashboardStats db).recentDonors ∧
    ∀ j ∈ (getDashboardStats db).recentDonors,
      j.donor = findDonor db j.donation.donorId ∧
      j.campaign = findCampaign db j.donation.campaignId ∧
      j.donation ∈ db.donations := by
  refine ⟨?_, ?_, ?_⟩
  · show (((sortDescBy (fun d => d.createdAt) db.donations).take 5).map (joinDonation db)).length = _
    rw [List.length_map, List.length_take, sortDescBy_length]
  · show DescOrdered _ (((sortDescBy (fun d => d.createdAt) db.donations).take 5).map (joinDonation db))
    unfold DescOrdered
    have hs0 : DescOrdered (fun d : Donation => d.createdAt)
        (sortDescBy (fun d => d.createdAt) db.donations) :=
      sortDescBy_sorted _ _
    have hs : List.Pairwise (fun a b : Donation => b.createdAt ≤ a.createdAt)
        ((sortDescBy (fun d => d.createdAt) db.donations).take 5) :=
      List.Pairwise.sublist (List.take_sublist 5 _) hs0
    exact List.pairwise_map.mpr hs
  · intro j hj
    have hj2 : j ∈ ((sortDescBy (fun d => d.createdAt) db.donations).take 5).map (joinDonation db) := hj
    obtain ⟨d, hd, rfl⟩ := List.mem_map.mp hj2
    refine ⟨rfl, rfl, ?_⟩
    exact (sortDescBy_perm _ _).mem_iff.mp (List.mem_of_mem_take hd)

def donorW : Donor := ⟨"d1", "Alice", none, none, none, 0, 0⟩

def donationW : Donation := ⟨"dn1", 10, "d1", none, 2, 2⟩

def dbW : DB := ⟨[], [donorW], [], [donationW], []⟩

theorem C6_recent_donors_witness :
    (getDashboardStats dbW).recentDonors.length = min 5 dbW.donations.length ∧
    (joinDonation dbW donationW).donor = findDonor dbW (joinDonation dbW donationW).donation.donorId ∧
    (joinDonation dbW donationW).donation ∈ dbW.donations :=
  ⟨(C6_recent_donors dbW).1,
   ((C6_recent_donors dbW).2.2 (joinDonation dbW donationW) (by decide)).1,
   ((C6_recent_donors dbW).2.2 (joinDonation dbW donationW) (by decide)).2.2⟩

/-- C8: the export has the fixed five headers and one row per persisted
expense, in table order with no filtering; each row carries the ISO date
of the creation timestamp, the expense fields verbatim, and the referenced
campaign's name, with the placeholder for an absent or unresolved
campaign. -/
theorem C8_export_rows (db : DB) :
    (exportExpenses db).1 = ["Date", "Description", "Amount", "Category", "Campaign"] ∧
    (exportExpenses db).2.length = db.expenses.length ∧
    (∀ i e, db.expenses.get? i = some e →
        (exportExpenses db).2.get? i = some (expenseRow db e)) ∧
    (∀ e, (expenseRow db e).date = isoDate e.createdAt ∧
        (expenseRow db e).description = e.description ∧
        (expenseRow db e).amount = e.amount ∧
        (expenseRow db e).category = e.category) ∧
    (∀ e : Expense, e.campaignId = none → (expenseRow db e).campaign = "N/A") ∧
    (∀ e : Expense, findCampaign db e.campaignId = none → (expenseRow db e).campaign = "N/A") ∧
    (∀ e c, findCampaign db e.campaignId = some c → c.name ≠ "" →
        (expenseRow db e).campaign = c.name) := by
  refine ⟨rfl, List.length_map _ _, ?_, fun e => ⟨rfl, rfl, rfl, rfl⟩, ?_, ?_, ?_⟩
  · intro i e he
    show (db.expenses.map (expenseRow db)).get? i = _
    rw [List.get?_map, he]
    rfl
  · intro e h
    show jsOrStr ((findCampaign db e.campaignId).map (fun c => c.name)) "N/A" = "N/A"
    rw [show findCampaign db e.campaignId = none from by rw [h]; exact rfl]
    rfl
  · intro e h
    show jsOrStr ((findCampaign db e.campaignId).map (fun c => c.name)) "N/A" = "N/A"
    rw [h]
    rfl
  · intro e c h hn
    show jsOrStr ((findCampaign db e.campaignId).map (fun c => c.name)) "N/A" = c.name
    rw [h]
    show (if c.name = "" then "N/A" else c.name) = c.name
    rw [if_neg hn]

def campaignW : Campaign := ⟨"c1", "Relief", none, none, CampaignStatus.ACTIVE, 0, 0⟩

def expenseW : Expense := ⟨"e1", "Food", 500, "Food", some "c1", 0, 0⟩

def dbX : DB := ⟨[campaignW], [], [], [], [expenseW]⟩

theorem C8_export_rows_witness :
    (exportExpenses dbX).2.get? 0 = some (expenseRow dbX expenseW) ∧
    (expenseRow dbX expenseW).date = isoDate expenseW.createdAt ∧
    (expenseRow dbX expenseW).campaign = campaignW.name :=
  ⟨(C8_export_rows dbX).2.2.1 0 expenseW rfl,
   ((C8_export_rows dbX).2.2.2.1 expenseW).1,
   (C8_export_rows dbX).2.2.2.2.2.2 expenseW campaignW (by decide) (by decide)⟩

theorem donorsValid_applyOp (db : DB) (op : Op) (h : donorsValid db) :
    donorsValid (applyOp db op) := by
  cases op with
  | addCampaign c => exact h
  | addDonor dr =>
    intro d hd
    obtain ⟨a, ha, he⟩ := h d hd
    exact ⟨a, List.mem_append_left _ ha, he⟩
  | addBeneficiary b => exact h
  | addDonation dn =>
    show donorsValid (match insertDonation db dn with | some db2 => db2 | none => db)
    split
    · next db2 hins =>
      unfold insertDonation at hins
      split at hins
      · next hcond =>
        cases hins
        intro d hd
        rcases List.mem_append.mp hd with hd | hd
        · exact h d hd
        · rcases List.mem_singleton.mp hd with rfl
          have hde : donorExists db d.donorId = true :=
            ((Bool.and_eq_true _ _).mp hcond).1
          unfold donorExists at hde
          rcases List.any_eq_true.mp hde with ⟨dr, hdr, hid⟩
          exact ⟨dr, hdr, of_decide_eq_true hid⟩
      · cases hins
    · exact h
  | addExpense e =>
    show donorsValid (match insertExpense db e with | some db2 => db2 | none => db)
    split
    · next db2 hins =>
      unfold insertExpense at hins
      split at hins
      · cases hins
        exact h
      · cases hins
    · exact h
  | delCampaign cid =>
    intro d hd
    have hd2 : d ∈ db.donations.map (detachDonation cid) := hd
    rcases List.mem_map.mp hd2 with ⟨d0, hd0, rfl⟩
    obtain ⟨a, ha, he⟩ := h d0 hd0
    refine ⟨a, ha, ?_⟩
    show a.id = (detachDonation cid d0).donorId
    unfold detachDonation
    split
    · exact he
    · exact he
  | delDonor did =>
    intro d hd
    have hd2 := List.mem_filter.mp hd
    obtain ⟨a, ha, he⟩ := h d hd2.1
    have hne : d.donorId ≠ did := of_decide_eq_true hd2.2
    refine ⟨a, List.mem_filter.mpr ⟨ha, ?_⟩, he⟩
    exact decide_eq_true (fun hc : a.id = did => hne (he ▸ hc))

theorem donorsValid_foldl (ops : List Op) (db : DB) (h : donorsValid db) :
    donorsValid (ops.foldl applyOp db) := by
  induction ops generalizing db with
  | nil => exact h
  | cons op rest ih => exact ih _ (donorsValid_applyOp db op h)

/-- C9: deleting a campaign keeps every dependent donation and expense,
clearing exactly the campaignId references to it; deleting a donor removes
exactly that donor's donations; and along every history of store
operations, every persisted donation references an existing donor. -/
theorem C9_referential_integrity :
    (∀ db cid,
        (deleteCampaign db cid).donations.length = db.donations.length ∧
        (deleteCampaign db cid).expenses.length = db.expenses.length ∧
        (∀ d ∈ db.donations, detachDonation cid d ∈ (deleteCampaign db cid).donations ∧
            (detachDonation cid d).id = d.id ∧
            (detachDonation cid d).amount = d.amount ∧
            (detachDonation cid d).donorId = d.donorId ∧
            (d.campaignId = some cid → (detachDonation cid d).campaignId = none) ∧
            (d.campaignId ≠ some cid → (detachDonation cid d).campaignId = d.campaignId)) ∧
        (∀ e ∈ db.expenses, detachExpense cid e ∈ (deleteCampaign db cid).expenses ∧
            (e.campaignId = some cid → (detachExpense cid e).campaignId = none) ∧
            (e.campaignId ≠ some cid → (detachExpense cid e).campaignId = e.campaignId))) ∧
    (∀ db did,
        (∀ d ∈ db.donations, d.donorId = did → d ∉ (deleteDonor db did).donations) ∧
        (∀ d ∈ db.donations, d.donorId ≠ did → d ∈ (deleteDonor db did).donations)) ∧
    (∀ ops, donorsValid (runOps ops)) := by
  refine ⟨?_, ?_, ?_⟩
  · intro db cid
    refine ⟨List.length_map _ _, List.length_map _ _, ?_, ?_⟩
    · intro d hd
      refine ⟨List.mem_map_of_mem _ hd, ?_, ?_, ?_, ?_, ?_⟩
      · unfold detachDonation
        split
        · rfl
        · rfl
      · unfold detachDonation
        split
        · rfl
        · rfl
      · unfold detachDonation
        split
        · rfl
        · rfl
      · intro hc
        unfold detachDonation
        rw [if_pos hc]
      · intro hc
        unfold detachDonation
        rw [if_neg hc]
    · intro e he
      refine ⟨List.mem_map_of_mem _ he, ?_, ?_⟩
      · intro hc
        unfold detachExpense
        rw [if_pos hc]
      · intro hc
        unfold detachExpense
        rw [if_neg hc]
  · intro db did
    constructor
    · intro d hd hid hmem
      have := (List.mem_filter.mp hmem).2
      exact absurd hid (of_decide_eq_true this)
    · intro d hd hne
      exact List.mem_filter.mpr ⟨hd, decide_eq_true hne⟩
  · intro ops
    exact donorsValid_foldl ops DB.empty (fun d hd => absurd hd (List.not_mem_nil d))

theorem C9_referential_integrity_witness :
    detachDonation "c1" ⟨"dn2", 7, "d1", some "c1", 3, 3⟩ ∈
      (deleteCampaign ⟨[campaignW], [donorW], [], [⟨"dn2", 7, "d1", some "c1", 3, 3⟩], []⟩ "c1").donations ∧
    (detachDonation "c1" ⟨"dn2", 7, "d1", some "c1", 3, 3⟩).campaignId = none ∧
    (⟨"dn2", 7, "d1", some "c1", 3, 3⟩ : Donation) ∉
      (deleteDonor ⟨[campaignW], [donorW], [], [⟨"dn2", 7, "d1", some "c1", 3, 3⟩], []⟩ "d1").donations ∧
    donorsValid (runOps [Op.addDonor donorW, Op.addDonation donationW]) :=
  ⟨((C9_referential_integrity.1 ⟨[campaignW], [donorW], [], [⟨"dn2", 7, "d1", some "c1", 3, 3⟩], []⟩
      "c1").2.2.1 ⟨"dn2", 7, "d1", some "c1", 3, 3⟩ (by decide)).1,
   ((C9_referential_integrity.1 ⟨[campaignW], [donorW], [], [⟨"dn2", 7, "d1", some "c1", 3, 3⟩], []⟩
      "c1").2.2.1 ⟨"dn2", 7, "d1", some "c1", 3, 3⟩ (by decide)).2.2.2.2.1 rfl,
   (C9_referential_integrity.2.1 ⟨[campaignW], [donorW], [], [⟨"dn2", 7, "d1", some "c1", 3, 3⟩], []⟩
      "d1").1 ⟨"dn2", 7, "d1", some "c1", 3, 3⟩ (by decide) rfl,
   C9_referential_integrity.2.2 [Op.addDonor donorW, Op.addDonation donationW]⟩

theorem getExpensesList_sorted (db : DB) :
    DescOrdered (fun j => j.expense.createdAt) (getExpensesList db) := by
  unfold getExpensesList DescOrdered
  have hs0 : DescOrdered (fun e : Expense => e.createdAt)
      (sortDescBy (fun e => e.createdAt) db.expenses) := sortDescBy_sorted _ _
  exact List.pairwise_map.mpr hs0

theorem getDonationsList_sorted (db : DB) :
    DescOrdered (fun j => j.donation.createdAt) (getDonationsList db) := by
  unfold getDonationsList DescOrdered
  have hs0 : DescOrdered (fun d : Donation => d.createdAt)
      (sortDescBy (fun d => d.createdAt) db.donations) := sortDescBy_sorted _ _
  exact List.pairwise_map.mpr hs0

theorem getCampaignsList_sorted (db : DB) :
    DescOrdered (fun j => j.campaign.createdAt) (getCampaignsList db) := by
  unfold getCampaignsList DescOrdered
  have hs0 : DescOrdered (fun c : Campaign => c.createdAt)
      (sortDescBy (fun c => c.createdAt) db.campaigns) := sortDescBy_sorted _ _
  exact List.pairwise_map.mpr hs0

theorem getDonorsList_sorted (db : DB) :
    DescOrdered (fun j => j.donor.createdAt) (getDonorsList db) := by
  unfold getDonorsList DescOrdered
  have hs0 : DescOrdered (fun d : Donor => d.createdAt)
      (sortDescBy (fun d => d.createdAt) db.donors) := sortDescBy_sorted _ _
  exact List.pairwise_map.mpr hs0

theorem getBeneficiariesList_sorted (db : DB) :
    DescOrdered (fun b => b.createdAt) (getBeneficiariesList db) :=
  sortDescBy_sorted _ _

/-- C7 counterexample: a donation input that satisfies the schema but whose
donorId resolves to no donor does not create any record: the response is
not 201 and the state, hence the list, is unchanged. -/
theorem C7_counterexample :
    parseDonation ⟨7, "nobody", none⟩ = some ⟨7, "nobody", none⟩ ∧
    (createDonationCtrl ⟨DB.empty, 0, 0⟩ ⟨7, "nobody", none⟩).1.1 ≠ 201 ∧
    (createDonationCtrl ⟨DB.empty, 0, 0⟩ ⟨7, "nobody", none⟩).2 = ⟨DB.empty, 0, 0⟩ ∧
    getDonationsList ((createDonationCtrl ⟨DB.empty, 0, 0⟩ ⟨7, "nobody", none⟩).2).db =
      getDonationsList DB.empty := by decide

/-- C7 amended: for every input that satisfies the schema and whose
foreign-key references (donorId, campaignId) resolve, create responds 201
with the new record, the record carries the submitted field values plus
the generated id and timestamps, and the subsequent list is sorted by
creation time descending and contains exactly one record more than the
pre-create list: the new one. -/
theorem C7_create_then_list :
    (∀ sys : Sys, ∀ input, parseExpense input = some input →
        fkCampaignOk sys.db input.campaignId = true →
        (createExpenseCtrl sys input).1.1 = 201 ∧
        (createExpenseCtrl sys input).1.2 = some (mkExpense sys input) ∧
        (mkExpense sys input).description = input.description ∧
        (mkExpense sys input).amount = input.amount ∧
        (mkExpense sys input).category = input.category ∧
        (mkExpense sys input).campaignId = input.campaignId ∧
        (mkExpense sys input).id = genId sys.nextId ∧
        (mkExpense sys input).createdAt = sys.now ∧
        List.Perm ((getExpensesList (createExpenseCtrl sys input).2.db).map (fun j => j.expense))
          (mkExpense sys input :: (getExpensesList sys.db).map (fun j => j.expense)) ∧
        DescOrdered (fun j => j.expense.createdAt)
          (getExpensesList (createExpenseCtrl sys input).2.db)) ∧
    (∀ sys : Sys, ∀ input, parseDonation input = some input →
        donorExists sys.db input.donorId = true →
        fkCampaignOk sys.db input.campaignId = true →
        (createDonationCtrl sys input).1.1 = 201 ∧
        (createDonationCtrl sys input).1.2 = some (mkDonation sys input) ∧
        (mkDonation sys input).amount = input.amount ∧
        (mkDonation sys input).donorId = input.donorId ∧
        (mkDonation sys input).campaignId = input.campaignId ∧
        (mkDonation sys input).id = genId sys.nextId ∧
        (mkDonation sys input).createdAt = sys.now ∧
        List.Perm ((getDonationsList (createDonationCtrl sys input).2.db).map (fun j => j.donation))
          (mkDonation sys input :: (getDonationsList sys.db).map (fun j => j.donation)) ∧
        DescOrdered (fun j => j.donation.createdAt)
          (getDonationsList (createDonationCtrl sys input).2.db)) ∧
    (∀ sys : Sys, ∀ input d, parseCampaign input = some d →
        (createCampaign sys input).1.1 = 201 ∧
        (createCampaign sys input).1.2 = some (mkCampaign sys d) ∧
        (mkCampaign sys d).name = input.name ∧
        (mkCampaign sys d).description = input.description ∧
        (mkCampaign sys d).targetAmount = input.targetAmount ∧
        (mkCampaign sys d).status = input.status.getD CampaignStatus.ACTIVE ∧
        (mkCampaign sys d).id = genId sys.nextId ∧
        (mkCampaign sys d).createdAt = sys.now ∧
        List.Perm ((getCampaignsList (createCampaign sys input).2.db).map (fun j => j.campaign))
          (mkCampaign sys d :: (getCampaignsList sys.db).map (fun j => j.campaign)) ∧
        DescOrdered (fun j => j.campaign.createdAt)
          (getCampaignsList (createCampaign sys input).2.db)) ∧
    (∀ sys : Sys, ∀ input, parseDonor input = some input →
        (createDonor sys input).1.1 = 201 ∧
        (createDonor sys input).1.2 = some (mkDonor sys input) ∧
        (mkDonor sys input).name = input.name ∧
        (mkDonor sys input).email = input.email ∧
        (mkDonor sys input).phone = input.phone ∧
        (mkDonor sys input).address = input.address ∧
        (mkDonor sys input).id = genId sys.nextId ∧
        (mkDonor sys input).createdAt = sys.now ∧
        List.Perm ((getDonorsList (createDonor sys input).2.db).map (fun j => j.donor))
          (mkDonor sys input :: (getDonorsList sys.db).map (fun j => j.donor)) ∧
        DescOrdered (fun j => j.donor.createdAt)
          (getDonorsList (createDonor sys input).2.db)) ∧
    (∀ sys : Sys, ∀ input, parseBeneficiary input = some input →
        (createBeneficiary sys input).1.1 = 201 ∧
        (createBeneficiary sys input).1.2 = some (mkBeneficiary sys input) ∧
        (mkBeneficiary sys input).name = input.name ∧
        (mkBeneficiary sys input).description = input.description ∧
        (mkBeneficiary sys input).contactInfo = input.contactInfo ∧
        (mkBeneficiary sys input).id = genId sys.nextId ∧
        (mkBeneficiary sys input).createdAt = sys.now ∧
        List.Perm (getBeneficiariesList (createBeneficiary sys input).2.db)
          (mkBeneficiary sys input :: getBeneficiariesList sys.db) ∧
        DescOrdered (fun b => b.createdAt)
          (getBeneficiariesList (createBeneficiary sys input).2.db)) := by
  refine ⟨?_, ?_, ?_, ?_, ?_⟩
  · intro sys input hp hfk
    have hins : insertExpense sys.db (mkExpense sys input) =
        some ⟨sys.db.campaigns, sys.db.donors, sys.db.beneficiaries, sys.db.donations,
              sys.db.expenses ++ [mkExpense sys input]⟩ := by
      have hfk2 : fkCampaignOk sys.db (mkExpense sys input).campaignId = true := hfk
      unfold insertExpense
      rw [if_pos hfk2]
    have hc : createExpenseCtrl sys input = ((201, some (mkExpense sys input)),
        ⟨⟨sys.db.campaigns, sys.db.donors, sys.db.beneficiaries, sys.db.donations,
          sys.db.expenses ++ [mkExpense sys input]⟩, sys.nextId + 1, sys.now + 1⟩) := by
      simp only [createExpenseCtrl, hp, hins]
    refine ⟨by rw [hc], by rw [hc], rfl, rfl, rfl, rfl, rfl, rfl, ?_, getExpensesList_sorted _⟩
    rw [hc, getExpensesList_entities, getExpensesList_entities]
    exact sortDescBy_snoc_perm _ _ _
  · intro sys input hp hde hfk
    have hins : insertDonation sys.db (mkDonation sys input) =
        some ⟨sys.db.campaigns, sys.db.donors, sys.db.beneficiaries,
              sys.db.donations ++ [mkDonation sys input], sys.db.expenses⟩ := by
      have hcond : (donorExists sys.db (mkDonation sys input).donorId &&
          fkCampaignOk sys.db (mkDonation sys input).campaignId) = true :=
        (Bool.and_eq_true _ _).mpr ⟨hde, hfk⟩
      unfold insertDonation
      rw [if_pos hcond]
    have hc : createDonationCtrl sys input = ((201, some (mkDonation sys input)),
        ⟨⟨sys.db.campaigns, sys.db.donors, sys.db.beneficiaries,
          sys.db.donations ++ [mkDonation sys input], sys.db.expenses⟩,
         sys.nextId + 1, sys.now + 1⟩) := by
      simp only [createDonationCtrl, hp, hins]
    refine ⟨by rw [hc], by rw [hc], rfl, rfl, rfl, rfl, rfl, ?_, getDonationsList_sorted _⟩
    rw [hc, getDonationsList_entities, getDonationsList_entities]
    exact sortDescBy_snoc_perm _ _ _
  · intro sys input d hp
    have hc : createCampaign sys input = ((201, some (mkCampaign sys d)),
        ⟨insertCampaign sys.db (mkCampaign sys d), sys.nextId + 1, sys.now + 1⟩) := by
      simp only [createCampaign, hp]
    have hd : d = ⟨input.name, input.description, input.targetAmount,
        input.status.getD CampaignStatus.ACTIVE⟩ := by
      unfold parseCampaign at hp
      split at hp
      · cases hp
        rfl
      · cases hp
    refine ⟨by rw [hc], by rw [hc], by rw [hd]; exact rfl, by rw [hd]; exact rfl,
      by rw [hd]; exact rfl, by rw [hd]; exact rfl,
      rfl, rfl, ?_, getCampaignsList_sorted _⟩
    rw [hc, getCampaignsList_entities, getCampaignsList_entities]
    exact sortDescBy_snoc_perm _ _ _
  · intro sys input hp
    have hc : createDonor sys input = ((201, some (mkDonor sys input)),
        ⟨insertDonor sys.db (mkDonor sys input), sys.nextId + 1, sys.now + 1⟩) := by
      simp only [createDonor, hp]
    refine ⟨by rw [hc], by rw [hc], rfl, rfl, rfl, rfl, rfl, rfl, ?_, getDonorsList_sorted _⟩
    rw [hc, getDonorsList_entities, getDonorsList_entities]
    exact sortDescBy_snoc_perm _ _ _
  · intro sys input hp
    have hc : createBeneficiary sys input = ((201, some (mkBeneficiary sys input)),
        ⟨insertBeneficiary sys.db (mkBeneficiary sys input), sys.nextId + 1, sys.now + 1⟩) := by
      simp only [createBeneficiary, hp]
    refine ⟨by rw [hc], by rw [hc], rfl, rfl, rfl, rfl, rfl, ?_, getBeneficiariesList_sorted _⟩
    rw [hc]
    unfold getBeneficiariesList
    exact sortDescBy_snoc_perm _ _ _

def sysW : Sys := ⟨dbW, 10, 100⟩

theorem C7_create_then_list_witness :
    (createExpenseCtrl sysW ⟨"Food", 500, "Food", none⟩).1.1 = 201 ∧
    (createDonationCtrl sysW ⟨10, "d1", none⟩).1.1 = 201 ∧
    (createCampaign sysW ⟨"Relief", none, none, none⟩).1.1 = 201 ∧
    (createDonor sysW ⟨"Bob", none, none, none⟩).1.1 = 201 ∧
    (createBeneficiary sysW ⟨"Ben", none, none⟩).1.1 = 201 :=
  ⟨(C7_create_then_list.1 sysW ⟨"Food", 500, "Food", none⟩ (by decide) (by decide)).1,
   (C7_create_then_list.2.1 sysW ⟨10, "d1", none⟩ (by decide) (by decide) (by decide)).1,
   (C7_create_then_list.2.2.1 sysW ⟨"Relief", none, none, none⟩
     ⟨"Relief", none, none, CampaignStatus.ACTIVE⟩ (by decide)).1,
   (C7_create_then_list.2.2.2.1 sysW ⟨"Bob", none, none, none⟩ (by decide)).1,
   (C7_create_then_list.2.2.2.2 sysW ⟨"Ben", none, none⟩ (by decide)).1⟩

end RayOfHope
